import Mathlib

/-!
Shallow embedding of the authorization and query layer of the `ters` content
management backend (Rust/axum/sqlx), translated from:
  src/src/users/extractors.rs, src/src/users/views.rs,
  src/src/posts/views.rs, src/src/attachments/views.rs,
  src/src/attachments/models.rs, src/entity/src/content.rs.
Machine integers (u32/i32) are modelled as Nat; the relational store is
modelled as Lean lists of rows; sqlx statements issued to the store are
recorded as an explicit trace where a claim depends on them.
-/

deriving instance DecidableEq for Except

namespace Ters

/-- Error type of `users::errors::FieldError` (variants as used by the
handlers in src/src/users/views.rs, src/src/posts/views.rs and
src/src/attachments/views.rs). -/
inductive FieldError where
  | AlreadyExist (field : String)
  | InvalidParams (field : String)
  | PermissionDeny
  | NotFound (field : String)
  | DatabaseFailed (detail : String)
deriving Repr, DecidableEq

/-- Error type of `users::errors::AuthError` as used by the permission
extractors in src/src/users/extractors.rs. -/
inductive AuthError where
  | WrongCredentials
  | PermissionDeny
deriving Repr, DecidableEq

/-- A row of the configurable users table, fields as read and written by
src/src/users/views.rs (`uid`, `name`, `mail`, `url`, `screenName`,
`password`, `group`). -/
structure User where
  uid : Nat
  name : String
  mail : String
  url : String
  screenName : String
  password : Option String
  group : String
deriving Repr, DecidableEq

/-- A row of `typecho_contents` (src/entity/src/content.rs), restricted to
the columns the handlers under verification read or write. -/
structure Content where
  cid : Nat
  title : Option String
  slug : Option String
  created : Nat
  modified : Nat
  text : String
  type : String
  status : String
  password : Option String
  authorId : Nat
  parent : Nat
deriving Repr, DecidableEq

/-- A row of `typecho_metas` restricted to the columns the with-meta query
in src/src/posts/views.rs reads (`mid`, `slug`, `type`, `name`). -/
structure MetaRow where
  mid : Nat
  slug : String
  type : String
  name : String
deriving Repr, DecidableEq

/-- A row of `typecho_relationships` (`cid`, `mid`). -/
structure RelRow where
  cid : Nat
  mid : Nat
deriving Repr, DecidableEq

/-- A statement issued to the store by a list handler: the up-front COUNT
query, or the paged SELECT carrying the resolved ORDER BY fragment. -/
inductive Stmt where
  | countStmt
  | selectStmt (orderFrag : String)
deriving Repr, DecidableEq

/-! ### Role hierarchy gates (src/src/users/extractors.rs)

Each extractor `PMX` resolves the user from the bearer token and then makes
a pure decision on `user.group`; the decision (the Rust `match` on the
group string, a chain of string equality tests) is embedded here. -/

/-- `PMSubscriber` (src/src/users/extractors.rs lines 36-60): accepts every
one of the four role strings, rejects anything else. -/
def pm_subscriber (user : User) : Except AuthError User :=
  if user.group == "subscriber" || user.group == "contributor"
      || user.group == "editor" || user.group == "administrator" then
    Except.ok user
  else
    Except.error AuthError.PermissionDeny

/-- `PMContributor` (src/src/users/extractors.rs lines 62-84). -/
def pm_contributor (user : User) : Except AuthError User :=
  if user.group == "contributor" || user.group == "editor"
      || user.group == "administrator" then
    Except.ok user
  else
    Except.error AuthError.PermissionDeny

/-- `PMEditor` (src/src/users/extractors.rs lines 86-108). -/
def pm_editor (user : User) : Except AuthError User :=
  if user.group == "editor" || user.group == "administrator" then
    Except.ok user
  else
    Except.error AuthError.PermissionDeny

/-- `PMAdministrator` (src/src/users/extractors.rs lines 110-132). -/
def pm_administrator (user : User) : Except AuthError User :=
  if user.group == "administrator" then
    Except.ok user
  else
    Except.error AuthError.PermissionDeny

/-- The four gates indexed by the required tier 0..3
(Subscriber=0, Contributor=1, Editor=2, Administrator=3). -/
def gateOf (req : Fin 4) : User → Except AuthError User :=
  if req.val = 0 then pm_subscriber
  else if req.val = 1 then pm_contributor
  else if req.val = 2 then pm_editor
  else pm_administrator

/-- Spec-side tier of a role string in the fixed total order
{Subscriber=0, Contributor=1, Editor=2, Administrator=3}; `none` for a role
string outside the four tiers. -/
def roleTier (group : String) : Option Nat :=
  if group == "subscriber" then some 0
  else if group == "contributor" then some 1
  else if group == "editor" then some 2
  else if group == "administrator" then some 3
  else none

/-! ### Ownership policy (src/src/attachments/views.rs)

The per-object attachment handlers all run the same two-line check:
`let admin = user.group == "editor" || user.group == "administrator";
 if user.uid != attachment.authorId && !admin { return Err(PermissionDeny) }`. -/

/-- The elevated-tier test used at every attachment call site. -/
def is_admin (user : User) : Bool :=
  user.group == "editor" || user.group == "administrator"

/-- The condition under which the ownership check rejects
(src/src/attachments/views.rs lines 138-141, 157-161, 229-231). -/
def ownership_denied (user : User) (ownerId : Nat) : Bool :=
  user.uid != ownerId && !(is_admin user)

/-! ### Ordering and pagination helpers

`ORDER BY`, `LIMIT ?` and `OFFSET ?` of the paged SELECTs are modelled by a
stable insertion sort under the resolved ordering fragment followed by
`drop offset` and `take page_size`. -/

/-- Insert `x` into `l` before the first element not below it. -/
def insertLe {α : Type} (le : α → α → Bool) (x : α) : List α → List α
  | [] => [x]
  | y :: ys => if le x y then x :: y :: ys else y :: insertLe le x ys

/-- Stable insertion sort by the comparator `le`. -/
def sortLe {α : Type} (le : α → α → Bool) : List α → List α
  | [] => []
  | x :: xs => insertLe le x (sortLe le xs)

/-- Row ordering of the users table under a resolved ORDER BY fragment
(the six fragments produced in src/src/users/views.rs lines 110-118). -/
def userLe (frag : String) (a b : User) : Bool :=
  if frag == "uid DESC" then decide (b.uid ≤ a.uid)
  else if frag == "name" then decide (a.name ≤ b.name)
  else if frag == "name DESC" then decide (b.name ≤ a.name)
  else if frag == "mail" then decide (a.mail ≤ b.mail)
  else if frag == "mail DESC" then decide (b.mail ≤ a.mail)
  else decide (a.uid ≤ b.uid)

/-- NULLs-first comparison of two nullable slug columns. -/
def slugLe (a b : Option String) : Bool :=
  match a, b with
  | none, _ => true
  | some _, none => false
  | some x, some y => decide (x ≤ y)

/-- Row ordering of `typecho_contents` under a resolved ORDER BY fragment
(`cid`, `cid DESC`, `slug`, `slug DESC`). -/
def contentLe (frag : String) (a b : Content) : Bool :=
  if frag == "cid DESC" then decide (b.cid ≤ a.cid)
  else if frag == "slug" then slugLe a.slug b.slug
  else if frag == "slug DESC" then slugLe b.slug a.slug
  else decide (a.cid ≤ b.cid)

/-- A page of results as serialized by every list handler:
`{page, page_size, all_count, count, results}`. -/
structure Paged (α : Type) where
  page : Nat
  page_size : Nat
  all_count : Nat
  count : Nat
  results : List α
deriving Repr, DecidableEq

/-! ### Users handlers (src/src/users/views.rs) -/

/-- Query parameters of `list_users` (`UsersQuery`); all optional, with the
defaults applied at src/src/users/views.rs lines 105-107. -/
structure UsersQuery where
  page : Option Nat
  page_size : Option Nat
  order_by : Option String
deriving Repr, DecidableEq

/-- Order-key validation of `list_users` (src/src/users/views.rs lines
110-118): the Rust `match` mapping the six whitelisted keys to fragments
and rejecting any other key with `InvalidParams(key)`. -/
def users_order_frag (s : String) : Except FieldError String :=
  if s == "uid" then Except.ok "uid"
  else if s == "-uid" then Except.ok "uid DESC"
  else if s == "name" then Except.ok "name"
  else if s == "-name" then Except.ok "name DESC"
  else if s == "mail" then Except.ok "mail"
  else if s == "-mail" then Except.ok "mail DESC"
  else Except.error (FieldError.InvalidParams s)

/-- `list_users` (src/src/users/views.rs lines 88-146): counts all users
first, applies the query-parameter defaults, validates the order key, then
issues the paged SELECT. The second component is the trace of statements
issued to the store. -/
def list_users (users : List User) (q : UsersQuery) :
    Except FieldError (Paged User) × List Stmt :=
  let all_count := users.length
  let page := q.page.getD 1
  let page_size := q.page_size.getD 10
  let order_by := q.order_by.getD "-uid"
  let offset := (page - 1) * page_size
  match users_order_frag order_by with
  | Except.error e => (Except.error e, [Stmt.countStmt])
  | Except.ok frag =>
      let rows := ((sortLe (userLe frag) users).drop offset).take page_size
      (Except.ok
        { page := page, page_size := page_size, all_count := all_count,
          count := rows.length, results := rows },
       [Stmt.countStmt, Stmt.selectStmt frag])

/-- `get_user_by_id` (src/src/users/views.rs lines 148-177): the actor's
own record is returned as-is; an administrator fetching another uid gets
the stored row with the password column cleared; anyone else is denied. -/
def get_user_by_id (users : List User) (actor : User) (uid : Nat) :
    Except FieldError User :=
  if actor.uid == uid then
    Except.ok actor
  else if actor.group == "administrator" then
    match users.find? (fun u => u.uid == uid) with
    | some target => Except.ok { target with password := none }
    | none => Except.error (FieldError.InvalidParams "uid")
  else
    Except.error FieldError.PermissionDeny

/-- Body of `modify_user_by_id` (`UserModify`). -/
structure UserModify where
  name : String
  mail : String
  url : String
  screenName : String
  group : String
  password : Option String
deriving Repr, DecidableEq

/-- The group validation of `modify_user_by_id` (src/src/users/views.rs
lines 186-189): the requested group must be one of the four role strings. -/
def valid_group (g : String) : Bool :=
  g == "subscriber" || g == "contributor" || g == "editor" || g == "administrator"

/-- `modify_user_by_id` (src/src/users/views.rs lines 179-249). The
password-hashing primitive is a black box and passed in as `hash`. Returns
the handler outcome together with the resulting users table: with a
password in the body only the password column of the target row is updated,
otherwise the profile columns and group are updated. -/
def modify_user_by_id (users : List User) (actor : User) (uid : Nat)
    (um : UserModify) (hash : String → String) :
    Except FieldError String × List User :=
  if (actor.uid == uid && actor.group == um.group) || actor.group == "administrator" then
    if valid_group um.group then
      if users.any (fun u => u.uid == uid) then
        match um.password with
        | none =>
            (Except.ok "infomation changed",
             users.map (fun u =>
               if u.uid == uid then
                 { u with name := um.name, mail := um.mail, url := um.url,
                          screenName := um.screenName, group := um.group }
               else u))
        | some pw =>
            (Except.ok "password changed",
             users.map (fun u =>
               if u.uid == uid then { u with password := some (hash pw) } else u))
      else
        (Except.error (FieldError.InvalidParams "uid"), users)
    else
      (Except.error (FieldError.InvalidParams "group"), users)
  else
    (Except.error FieldError.PermissionDeny, users)

/-! ### Posts handlers (src/src/posts/views.rs) -/

/-- Body of `create_post` (`PostCreate`), as bound by the INSERT at
src/src/posts/views.rs lines 36-52. -/
structure PostCreate where
  title : String
  slug : String
  created : Nat
  text : String
  template : Option String
  status : String
  password : Option String
  allowComment : String
  allowPing : String
  allowFeed : String
deriving Repr, DecidableEq

/-- The duplicate-slug probe of `create_post` (src/src/posts/views.rs lines
17-25): `SELECT EXISTS (SELECT 1 FROM typecho_contents WHERE slug == ?1)`. -/
def slug_exists (contents : List Content) (slug : String) : Bool :=
  contents.any (fun c => c.slug == some slug)

/-- `create_post` (src/src/posts/views.rs lines 12-59): if the slug already
exists the handler returns `AlreadyExist("slug")` before the INSERT;
otherwise the new row (type "post", author = the contributor, modified =
now) is appended. Returns the outcome and the resulting content table. -/
def create_post (contents : List Content) (user : User) (pc : PostCreate)
    (now : Nat) (newCid : Nat) : Except FieldError Nat × List Content :=
  if slug_exists contents pc.slug then
    (Except.error (FieldError.AlreadyExist "slug"), contents)
  else
    (Except.ok newCid,
     contents ++
       [{ cid := newCid, title := some pc.title, slug := some pc.slug,
          created := pc.created, modified := now, text := pc.text,
          type := "post", status := pc.status, password := pc.password,
          authorId := user.uid, parent := 0 }])

/-- Query parameters of `list_posts` (`PostsQuery`): `page`, `page_size`
and `order_by` are accessed directly (src/src/posts/views.rs lines 76-77),
`with_meta` is optional (line 84). -/
structure PostsQuery where
  page : Nat
  page_size : Nat
  order_by : String
  with_meta : Option Bool
deriving Repr, DecidableEq

/-- The tables the posts queries range over. -/
structure PostStore where
  contents : List Content
  relationships : List RelRow
  metas : List MetaRow
deriving Repr, DecidableEq

/-- A result row of the with-meta query: a content row joined with its
grouped categories and tags (`PostWithMeta`). -/
structure PostWithMeta where
  post : Content
  categories : List MetaRow
  tags : List MetaRow
deriving Repr, DecidableEq

/-- Results of `list_posts`: plain content rows, or rows with meta. -/
inductive PostsResults where
  | plain (rows : List Content)
  | withMeta (rows : List PostWithMeta)
deriving Repr, DecidableEq

/-- The JSON page returned by `list_posts`. -/
structure PostsPage where
  page : Nat
  page_size : Nat
  all_count : Nat
  count : Nat
  results : PostsResults
deriving Repr, DecidableEq

/-- Order-key resolution of `list_posts` (src/src/posts/views.rs lines
77-82): the Rust `match` recognizes "-cid", "slug" and "-slug" and maps
EVERY other string — including "cid" itself and any unrecognized key — to
the default fragment "cid"; it has no error branch. -/
def posts_order_frag (s : String) : String :=
  if s == "-cid" then "cid DESC"
  else if s == "slug" then "slug"
  else if s == "-slug" then "slug DESC"
  else "cid"

/-- The join of `typecho_relationships` and `typecho_metas` restricted to
one content row and one meta type: the rows
`JOIN typecho_relationships ON contents.cid == relationships.cid
 JOIN typecho_metas ON relationships.mid == metas.mid
 WHERE metas."type" == mtype` contribute for the given `cid`. -/
def joined_metas (rels : List RelRow) (metas : List MetaRow) (cid : Nat)
    (mtype : String) : List MetaRow :=
  (rels.filter (fun r => r.cid == cid)).flatMap
    (fun r => metas.filter (fun m => m.mid == r.mid && m.type == mtype))

/-- The `categories_json` / `tags_json` CTE of the with-meta query
(src/src/posts/views.rs lines 87-123): one `(cid, group)` row per post
that has AT LEAST ONE joined meta of the given type — the inner joins mean
a post with no matching meta yields no group row at all. -/
def group_json (store : PostStore) (mtype : String) : List (Nat × List MetaRow) :=
  (store.contents.filter (fun c => c.type == "post")).filterMap (fun c =>
    let g := joined_metas store.relationships store.metas c.cid mtype
    if g.isEmpty then none else some (c.cid, g))

/-- Ordering of with-meta rows by the parent content row. -/
def postMetaLe (frag : String) (a b : PostWithMeta) : Bool :=
  contentLe frag a.post b.post

/-- The main with-meta SELECT (src/src/posts/views.rs lines 125-132):
`FROM typecho_contents JOIN categories_json ON cid JOIN tags_json ON cid
 WHERE type == "post" GROUP BY cid ORDER BY frag LIMIT ?1 OFFSET ?2`.
Both joins are inner: a post row survives only if it appears in BOTH CTEs. -/
def posts_with_meta_rows (store : PostStore) (frag : String)
    (page_size offset : Nat) : List PostWithMeta :=
  let cats := group_json store "category"
  let tags := group_json store "tag"
  let joined := (store.contents.filter (fun c => c.type == "post")).filterMap
    (fun c =>
      match cats.find? (fun p => p.1 == c.cid) with
      | none => none
      | some cj =>
          match tags.find? (fun p => p.1 == c.cid) with
          | none => none
          | some tj => some { post := c, categories := cj.2, tags := tj.2 })
  ((sortLe (postMetaLe frag) joined).drop offset).take page_size

/-- `list_posts` (src/src/posts/views.rs lines 61-182): issues the COUNT
first, resolves the order fragment (never failing), then issues either the
with-meta SELECT or the plain SELECT. The handler returns `Json` directly —
it has no error path for the order key. The second component is the trace
of statements issued to the store. The COUNT at lines 65-74 compares
`type` against the UNQUOTED identifier `post`: the statement references a
column that does not exist (and uses `==`, which MySQL does not parse), so
`fetch_one` always fails and `.unwrap_or(0)` makes the reported
`all_count` 0 on every input; that constant-0 behavior is embedded. -/
def list_posts (store : PostStore) (q : PostsQuery) : PostsPage × List Stmt :=
  let all_count := 0
  let offset := (q.page - 1) * q.page_size
  let frag := posts_order_frag q.order_by
  if q.with_meta.getD false then
    let rows := posts_with_meta_rows store frag q.page_size offset
    ({ page := q.page, page_size := q.page_size, all_count := all_count,
       count := rows.length, results := PostsResults.withMeta rows },
     [Stmt.countStmt, Stmt.selectStmt frag])
  else
    let rows := ((sortLe (contentLe frag)
        (store.contents.filter (fun c => c.type == "post"))).drop offset).take q.page_size
    ({ page := q.page, page_size := q.page_size, all_count := all_count,
       count := rows.length, results := PostsResults.plain rows },
     [Stmt.countStmt, Stmt.selectStmt frag])

/-! ### Attachments handlers (src/src/attachments/views.rs) -/

/-- Query parameters of `list_attachments` (`AttachmentsQuery` in
src/src/attachments/models.rs); the `private` flag is named
`private_flag` here because `private` is reserved in Lean. -/
structure AttachmentsQuery where
  page : Option Nat
  page_size : Option Nat
  order_by : Option String
  private_flag : Option Bool
deriving Repr, DecidableEq

/-- The privacy scope of `list_attachments` (src/src/attachments/views.rs
lines 25-35): the empty extra predicate when the private flag is honored,
otherwise the fragment `AND "authorId" = uid`; `none` embeds the empty
predicate and `some uid` the author filter. -/
def private_scope (private_flag : Option Bool) (user : User) : Option Nat :=
  if private_flag.getD false && (user.group == "editor" || user.group == "administrator")
  then none
  else some user.uid

/-- Whether a content row satisfies the privacy predicate. -/
def scope_matches (scope : Option Nat) (c : Content) : Bool :=
  match scope with
  | none => true
  | some a => c.authorId == a

/-- Modelled from the spec: `common::db::get_contents_count_with_private`
is not under src/ (only its caller is); per spec section 4.5 the count
query uses the same privacy/type predicate as the list, without pagination
or aggregation joins. -/
def get_contents_count_with_private (contents : List Content)
    (scope : Option Nat) (ctype : String) : Nat :=
  (contents.filter (fun c => c.type == ctype && scope_matches scope c)).length

/-- Modelled from the spec: `attachments::db::get_attachments_by_list_query`
is not under src/ (only its caller is); per spec sections 4.4-4.5 it
selects the content rows of type "attachment" matching the privacy
predicate, ordered by the whitelisted fragment, with LIMIT page_size and
the computed OFFSET as bound parameters. -/
def get_attachments_by_list_query (contents : List Content)
    (scope : Option Nat) (page_size offset : Nat) (frag : String) : List Content :=
  ((sortLe (contentLe frag)
      (contents.filter (fun c => c.type == "attachment" && scope_matches scope c))).drop
    offset).take page_size

/-- Order-key validation of `list_attachments` (src/src/attachments/views.rs
lines 45-51). -/
def attachments_order_frag (s : String) : Except FieldError String :=
  if s == "cid" then Except.ok "cid"
  else if s == "-cid" then Except.ok "cid DESC"
  else if s == "slug" then Except.ok "slug"
  else if s == "-slug" then Except.ok "slug DESC"
  else Except.error (FieldError.InvalidParams s)

/-- `list_attachments` (src/src/attachments/views.rs lines 20-70): resolves
the privacy scope (the private flag only counts for editor/administrator),
issues the scoped COUNT, applies the query defaults, validates the order
key, then issues the scoped paged SELECT. The serialization of each row to
`AttachmentInfo` (a field projection) is omitted; results are the selected
rows. The second component is the trace of statements issued. -/
def list_attachments (contents : List Content) (user : User)
    (q : AttachmentsQuery) : Except FieldError (Paged Content) × List Stmt :=
  let scope := private_scope q.private_flag user
  let all_count := get_contents_count_with_private contents scope "attachment"
  let page := q.page.getD 1
  let page_size := q.page_size.getD 10
  let order_by := q.order_by.getD "-cid"
  let offset := (page - 1) * page_size
  match attachments_order_frag order_by with
  | Except.error e => (Except.error e, [Stmt.countStmt])
  | Except.ok frag =>
      let rows := get_attachments_by_list_query contents scope page_size offset frag
      (Except.ok
        { page := page, page_size := page_size, all_count := all_count,
          count := rows.length, results := rows },
       [Stmt.countStmt, Stmt.selectStmt frag])

/-- Modelled from the spec: `common::db::get_content_by_cid` is not under
src/ (only its callers are); per spec section 6 `fetch_one` returns the
row with the given cid or NotFound, embedded as an Option. -/
def get_content_by_cid (contents : List Content) (cid : Nat) : Option Content :=
  contents.find? (fun c => c.cid == cid)

/-- `get_attachment_by_cid` (src/src/attachments/views.rs lines 128-145):
a missing cid is `NotFound("cid")`; an existing row owned by someone else
is `PermissionDeny` for an actor below editor tier. -/
def get_attachment_by_cid (contents : List Content) (user : User)
    (cid : Nat) : Except FieldError Content :=
  match get_content_by_cid contents cid with
  | none => Except.error (FieldError.NotFound "cid")
  | some attachment =>
      if ownership_denied user attachment.authorId then
        Except.error FieldError.PermissionDeny
      else
        Except.ok attachment

/-- `delete_attachment_by_cid` (src/src/attachments/views.rs lines
219-243): a missing cid is `InvalidParams("cid")`; an existing row owned by
someone else is `PermissionDeny` for an actor below editor tier; otherwise
the row is deleted (the file deletion is an external collaborator).
Returns the outcome and the resulting content table. -/
def delete_attachment_by_cid (contents : List Content) (user : User)
    (cid : Nat) : Except FieldError String × List Content :=
  match get_content_by_cid contents cid with
  | none => (Except.error (FieldError.InvalidParams "cid"), contents)
  | some attachment =>
      if ownership_denied user attachment.authorId then
        (Except.error FieldError.PermissionDeny, contents)
      else
        (Except.ok "ok", contents.filter (fun c => c.cid != cid))

/-! ### Whitelists (spec side, for the order-key claims) -/

/-- The order keys `list_users` accepts. -/
def usersOrderKeys : List String := ["uid", "-uid", "name", "-name", "mail", "-mail"]

/-- The order keys `list_attachments` accepts. -/
def attachmentsOrderKeys : List String := ["cid", "-cid", "slug", "-slug"]

/-- The order keys `list_posts` explicitly recognizes (everything else,
"cid" included, falls to the default fragment). -/
def postsOrderKeys : List String := ["-cid", "slug", "-slug"]

/-! ### Sample rows and stores for concrete evaluations -/

/-- A users-table row with the given uid and group. -/
def mkUser (uid : Nat) (group : String) : User :=
  { uid := uid, name := "name", mail := "mail", url := "url",
    screenName := "screen", password := some "digest", group := group }

/-- A `typecho_contents` row with the given cid, type, author and slug. -/
def mkContent (cid : Nat) (ctype : String) (authorId : Nat)
    (slug : Option String) : Content :=
  { cid := cid, title := none, slug := slug, created := 0, modified := 0,
    text := "", type := ctype, status := "publish", password := none,
    authorId := authorId, parent := 0 }

/-- A `typecho_metas` row with the given mid and type. -/
def mkMeta (mid : Nat) (mtype : String) : MetaRow :=
  { mid := mid, slug := "meta", type := mtype, name := "meta" }

/-- A store with one post and no meta rows at all. -/
def demoPostStore : PostStore :=
  { contents := [mkContent 1 "post" 1 (some "hello")],
    relationships := [], metas := [] }

/-- A store whose single post has one category and zero tags. -/
def bugPostStore : PostStore :=
  { contents := [mkContent 1 "post" 1 (some "hello")],
    relationships := [{ cid := 1, mid := 10 }],
    metas := [mkMeta 10 "category"] }

end Ters

namespace Ters

/-! ### Helper lemmas -/

theorem mem_insertLe {α : Type} (le : α → α → Bool) (x a : α) :
    ∀ l : List α, a ∈ insertLe le x l ↔ a = x ∨ a ∈ l
  | [] => by simp [insertLe]
  | y :: ys => by
      by_cases h : le x y = true
      · simp [insertLe, h]
      · simp only [insertLe, h, if_neg, Bool.not_eq_true, List.mem_cons,
          mem_insertLe le x a ys]
        tauto

theorem mem_sortLe {α : Type} (le : α → α → Bool) (a : α) :
    ∀ l : List α, a ∈ sortLe le l ↔ a ∈ l
  | [] => Iff.rfl
  | x :: xs => by
      simp [sortLe, mem_insertLe, mem_sortLe le a xs]

/-- C3: for every identity and each of the four role requirements, the gate
succeeds and yields the identity iff the identity's tier (under
Subscriber < Contributor < Editor < Administrator) is at least the
requirement, and otherwise — including for any role string outside the four
tiers — it fails with PermissionDeny. The gates are pure functions. -/
theorem C3_role_gate (u : User) (req : Fin 4) :
    (gateOf req u = Except.ok u ↔ ∃ t, roleTier u.group = some t ∧ req.val ≤ t)
    ∧ (gateOf req u ≠ Except.ok u →
        gateOf req u = Except.error AuthError.PermissionDeny) := by
  fin_cases req <;>
    by_cases h1 : u.group = "subscriber" <;>
    by_cases h2 : u.group = "contributor" <;>
    by_cases h3 : u.group = "editor" <;>
    by_cases h4 : u.group = "administrator" <;>
    simp_all [gateOf, pm_subscriber, pm_contributor, pm_editor,
      pm_administrator, roleTier]

/-- C6: the ownership check passes (does not reject) iff the actor owns the
resource or the actor's role is editor or administrator; in every other
case the call site returns PermissionDeny. -/
theorem C6_ownership (u : User) (ownerId : Nat) :
    ownership_denied u ownerId = false ↔
      (u.uid = ownerId ∨ u.group = "editor" ∨ u.group = "administrator") := by
  by_cases h1 : u.uid = ownerId <;>
    by_cases h2 : u.group = "editor" <;>
    by_cases h3 : u.group = "administrator" <;>
    simp_all [ownership_denied, is_admin]

/-- C8: creating a post whose slug already exists in the content table
returns `AlreadyExist("slug")` and performs no insert — the content table
is returned unchanged. -/
theorem C8_create_post_duplicate_slug (contents : List Content) (user : User)
    (pc : PostCreate) (now newCid : Nat)
    (h : slug_exists contents pc.slug = true) :
    create_post contents user pc now newCid =
      (Except.error (FieldError.AlreadyExist "slug"), contents) := by
  simp [create_post, h]

theorem C8_create_post_duplicate_slug_witness :
    slug_exists [mkContent 1 "post" 7 (some "hello")] "hello" = true ∧
    create_post [mkContent 1 "post" 7 (some "hello")] (mkUser 5 "contributor")
        { title := "t", slug := "hello", created := 0, text := "", template := none,
          status := "publish", password := none, allowComment := "1",
          allowPing := "1", allowFeed := "1" } 9 2 =
      (Except.error (FieldError.AlreadyExist "slug"),
       [mkContent 1 "post" 7 (some "hello")]) :=
  ⟨by decide,
   C8_create_post_duplicate_slug [mkContent 1 "post" 7 (some "hello")]
     (mkUser 5 "contributor")
     { title := "t", slug := "hello", created := 0, text := "", template := none,
       status := "publish", password := none, allowComment := "1",
       allowPing := "1", allowFeed := "1" } 9 2 (by decide)⟩

/-- C10: when an administrator fetches a uid different from their own and
that user exists, the returned record is the stored row with its password
field cleared to none, so the stored digest never appears in the response
on that path. -/
theorem C10_admin_get_clears_password (users : List User) (actor : User)
    (uid : Nat) (t : User)
    (hadmin : actor.group = "administrator") (hne : actor.uid ≠ uid)
    (hfind : users.find? (fun u => u.uid == uid) = some t) :
    ∃ r, get_user_by_id users actor uid = Except.ok r ∧ r.password = none ∧
      r.uid = t.uid ∧ r.name = t.name ∧ r.group = t.group := by
  refine ⟨{ t with password := none }, ?_, rfl, rfl, rfl, rfl⟩
  simp [get_user_by_id, hadmin, hfind, hne]

theorem C10_admin_get_clears_password_witness :
    ∃ r, get_user_by_id [mkUser 2 "subscriber"] (mkUser 1 "administrator") 2 =
        Except.ok r ∧ r.password = none ∧
      r.uid = (mkUser 2 "subscriber").uid ∧ r.name = (mkUser 2 "subscriber").name ∧
      r.group = (mkUser 2 "subscriber").group :=
  C10_admin_get_clears_password [mkUser 2 "subscriber"] (mkUser 1 "administrator")
    2 (mkUser 2 "subscriber") (by decide) (by decide) (by decide)

/-- C7: a non-administrator's modification request is permitted only when
the target uid is the actor's own uid and the requested group equals the
actor's current group — any other combination is PermissionDeny with the
users table unchanged — while an administrator's request naming any of the
four valid roles and an existing target succeeds and sets that role on the
target. -/
theorem C7_self_role_modification (users : List User) (actor : User)
    (uid : Nat) (um : UserModify) (hash : String → String) :
    (actor.group ≠ "administrator" → ¬(actor.uid = uid ∧ um.group = actor.group) →
      modify_user_by_id users actor uid um hash =
        (Except.error FieldError.PermissionDeny, users))
    ∧ (actor.group = "administrator" → valid_group um.group = true →
       um.password = none → users.any (fun u => u.uid == uid) = true →
      (modify_user_by_id users actor uid um hash).1 = Except.ok "infomation changed"
      ∧ ∀ v ∈ (modify_user_by_id users actor uid um hash).2,
          v.uid = uid → v.group = um.group) := by
  constructor
  · intro hadmin hno
    have hcond : ((actor.uid == uid && actor.group == um.group)
        || actor.group == "administrator") = false := by
      by_cases he : actor.uid = uid
      · have hg : um.group ≠ actor.group := fun hg => hno ⟨he, hg⟩
        have hg2 : ¬actor.group = um.group := fun h => hg h.symm
        simp [he, hadmin, hg2]
      · simp [he, hadmin]
    simp [modify_user_by_id, hcond]
  · intro hadmin hgroup hpw hexist
    have hres : modify_user_by_id users actor uid um hash =
        (Except.ok "infomation changed",
         users.map (fun u =>
           if u.uid == uid then
             { u with name := um.name, mail := um.mail, url := um.url,
                      screenName := um.screenName, group := um.group }
           else u)) := by
      simp [modify_user_by_id, hadmin, hgroup, hexist, hpw]
    rw [hres]
    refine ⟨rfl, ?_⟩
    intro v hv hvuid
    simp only [List.mem_map] at hv
    obtain ⟨u, _, rfl⟩ := hv
    by_cases h : u.uid = uid
    · simp [h]
    · simp only [h, if_neg, beq_iff_eq] at hvuid ⊢
      exact absurd hvuid h

theorem C7_self_role_modification_witness :
    modify_user_by_id [mkUser 1 "subscriber", mkUser 2 "editor"]
        (mkUser 1 "subscriber") 2
        { name := "n", mail := "m", url := "u", screenName := "s",
          group := "editor", password := none } (fun s => s) =
      (Except.error FieldError.PermissionDeny,
       [mkUser 1 "subscriber", mkUser 2 "editor"])
    ∧ ((modify_user_by_id [mkUser 1 "subscriber", mkUser 3 "administrator"]
          (mkUser 3 "administrator") 1
          { name := "n", mail := "m", url := "u", screenName := "s",
            group := "editor", password := none } (fun s => s)).1 =
        Except.ok "infomation changed"
      ∧ ∀ v ∈ (modify_user_by_id [mkUser 1 "subscriber", mkUser 3 "administrator"]
          (mkUser 3 "administrator") 1
          { name := "n", mail := "m", url := "u", screenName := "s",
            group := "editor", password := none } (fun s => s)).2,
          v.uid = 1 → v.group = "editor") :=
  ⟨(C7_self_role_modification [mkUser 1 "subscriber", mkUser 2 "editor"]
      (mkUser 1 "subscriber") 2
      { name := "n", mail := "m", url := "u", screenName := "s",
        group := "editor", password := none } (fun s => s)).1
      (by decide) (by decide),
   (C7_self_role_modification [mkUser 1 "subscriber", mkUser 3 "administrator"]
      (mkUser 3 "administrator") 1
      { name := "n", mail := "m", url := "u", screenName := "s",
        group := "editor", password := none } (fun s => s)).2
      (by decide) (by decide) (by decide) (by decide)⟩

/-- C5: for an actor whose role is below editor tier, the private flag of
an attachment-listing request is ignored: whatever its value, every
returned row is owned by the actor and `all_count` counts only the
attachment rows owned by the actor. -/
theorem C5_private_flag_scoped (contents : List Content) (user : User)
    (q : AttachmentsQuery)
    (h1 : user.group ≠ "editor") (h2 : user.group ≠ "administrator") :
    ∀ r, (list_attachments contents user q).1 = Except.ok r →
      (∀ row ∈ r.results, row.authorId = user.uid) ∧
      r.all_count = (contents.filter
        (fun c => c.type == "attachment" && c.authorId == user.uid)).length := by
  intro r hr
  have hscope : private_scope q.private_flag user = some user.uid := by
    simp [private_scope, h1, h2]
  unfold list_attachments at hr
  rw [hscope] at hr
  simp only [] at hr
  cases hfrag : attachments_order_frag (q.order_by.getD "-cid") with
  | error e => rw [hfrag] at hr; exact absurd hr (by simp)
  | ok frag =>
      rw [hfrag] at hr
      simp only [Except.ok.injEq] at hr
      subst hr
      constructor
      · intro row hrow
        simp only [get_attachments_by_list_query] at hrow
        have h3 : row ∈ sortLe (contentLe frag)
            (contents.filter (fun c =>
              c.type == "attachment" && scope_matches (some user.uid) c)) :=
          List.drop_subset _ _ (List.take_subset _ _ hrow)
        have h4 := (mem_sortLe _ row _).mp h3
        have h5 := List.of_mem_filter h4
        simp only [scope_matches, Bool.and_eq_true, beq_iff_eq] at h5
        exact h5.2
      · simp [get_contents_count_with_private, scope_matches]

theorem C5_private_flag_scoped_witness :
    (mkUser 5 "subscriber").group ≠ "editor" ∧
    (mkUser 5 "subscriber").group ≠ "administrator" ∧
    (list_attachments
        [mkContent 1 "attachment" 5 none, mkContent 2 "attachment" 7 none]
        (mkUser 5 "subscriber")
        { page := some 1, page_size := some 10, order_by := none,
          private_flag := some true }).1 =
      Except.ok
        { page := 1, page_size := 10, all_count := 1, count := 1,
          results := [mkContent 1 "attachment" 5 none] } ∧
    ∀ r, (list_attachments
        [mkContent 1 "attachment" 5 none, mkContent 2 "attachment" 7 none]
        (mkUser 5 "subscriber")
        { page := some 1, page_size := some 10, order_by := none,
          private_flag := some true }).1 = Except.ok r →
      (∀ row ∈ r.results, row.authorId = (mkUser 5 "subscriber").uid) ∧
      r.all_count = ([mkContent 1 "attachment" 5 none,
          mkContent 2 "attachment" 7 none].filter
        (fun c => c.type == "attachment" && c.authorId == (mkUser 5 "subscriber").uid)).length :=
  ⟨by decide, by decide, by decide,
   C5_private_flag_scoped
     [mkContent 1 "attachment" 5 none, mkContent 2 "attachment" 7 none]
     (mkUser 5 "subscriber")
     { page := some 1, page_size := some 10, order_by := none,
       private_flag := some true } (by decide) (by decide)⟩

/-- C4 counterexample: for a contributor (below editor tier) who owns
neither answer, the responses are distinguishable — a nonexistent cid
yields `NotFound("cid")` while an existing attachment owned by someone
else yields `PermissionDeny`, so the per-object read does reveal whether
the resource exists. -/
theorem C4_enumeration_counterexample :
    get_attachment_by_cid [mkContent 1 "attachment" 7 none]
        (mkUser 5 "contributor") 2 = Except.error (FieldError.NotFound "cid")
    ∧ get_attachment_by_cid [mkContent 1 "attachment" 7 none]
        (mkUser 5 "contributor") 1 = Except.error FieldError.PermissionDeny
    ∧ FieldError.NotFound "cid" ≠ FieldError.PermissionDeny := by
  refine ⟨by decide, by decide, by decide⟩

/-- C4 amended: for an actor below editor tier who does not own the target,
the per-object read and delete are NOT uniform in the resource's
existence — a nonexistent cid yields `NotFound("cid")` from the read and
`InvalidParams("cid")` from the delete, while an existing resource owned
by someone else yields `PermissionDeny` from both. -/
theorem C4_distinguishable_responses (contents : List Content) (u : User)
    (cid : Nat)
    (h1 : u.group ≠ "editor") (h2 : u.group ≠ "administrator") :
    (get_content_by_cid contents cid = none →
      get_attachment_by_cid contents u cid =
          Except.error (FieldError.NotFound "cid")
      ∧ (delete_attachment_by_cid contents u cid).1 =
          Except.error (FieldError.InvalidParams "cid"))
    ∧ (∀ att, get_content_by_cid contents cid = some att →
        att.authorId ≠ u.uid →
      get_attachment_by_cid contents u cid = Except.error FieldError.PermissionDeny
      ∧ (delete_attachment_by_cid contents u cid).1 =
          Except.error FieldError.PermissionDeny) := by
  constructor
  · intro hnone
    constructor
    · simp [get_attachment_by_cid, hnone]
    · simp [delete_attachment_by_cid, hnone]
  · intro att hsome hown
    have hden : ownership_denied u att.authorId = true := by
      have : ¬u.uid = att.authorId := fun h => hown h.symm
      simp [ownership_denied, is_admin, this, h1, h2]
    constructor
    · simp [get_attachment_by_cid, hsome, hden]
    · simp [delete_attachment_by_cid, hsome, hden]

theorem C4_distinguishable_responses_witness :
    (get_content_by_cid [mkContent 1 "attachment" 7 none] 2 = none →
      get_attachment_by_cid [mkContent 1 "attachment" 7 none]
          (mkUser 5 "contributor") 2 = Except.error (FieldError.NotFound "cid")
      ∧ (delete_attachment_by_cid [mkContent 1 "attachment" 7 none]
          (mkUser 5 "contributor") 2).1 =
          Except.error (FieldError.InvalidParams "cid"))
    ∧ (∀ att, get_content_by_cid [mkContent 1 "attachment" 7 none] 1 = some att →
        att.authorId ≠ (mkUser 5 "contributor").uid →
      get_attachment_by_cid [mkContent 1 "attachment" 7 none]
          (mkUser 5 "contributor") 1 = Except.error FieldError.PermissionDeny
      ∧ (delete_attachment_by_cid [mkContent 1 "attachment" 7 none]
          (mkUser 5 "contributor") 1).1 =
          Except.error FieldError.PermissionDeny) :=
  ⟨(C4_distinguishable_responses [mkContent 1 "attachment" 7 none]
      (mkUser 5 "contributor") 2 (by decide) (by decide)).1,
   (C4_distinguishable_responses [mkContent 1 "attachment" 7 none]
      (mkUser 5 "contributor") 1 (by decide) (by decide)).2⟩

/-- C1 counterexample: `list_posts` given the order key
"malicious; DROP TABLE" does NOT fail with an invalid-order-key error — it
has no error path at all — and it issues both the count statement and the
list statement, with the unrecognized key silently replaced by the default
fragment "cid". -/
theorem C1_posts_silent_default_counterexample :
    (list_posts demoPostStore
        { page := 1, page_size := 10, order_by := "malicious; DROP TABLE",
          with_meta := some false }).2 =
      [Stmt.countStmt, Stmt.selectStmt "cid"]
    ∧ (list_posts demoPostStore
        { page := 1, page_size := 10, order_by := "malicious; DROP TABLE",
          with_meta := some false }).1.count = 1 := by
  refine ⟨by decide, by decide⟩

/-- C1 amended: `list_users` and `list_attachments` reject a client order
key outside their whitelist with `InvalidParams` carrying the offending
key and never issue the list statement — though the count statement has
already been issued before validation — while `list_posts` never rejects:
an unrecognized key is silently replaced by the default fragment "cid"
(the client string itself is still never used as the ordering fragment);
in all three, a key missing from the request defaults to the resource's
default order key. -/
theorem C1_order_key_validation (key : String) (users : List User)
    (contents : List Content) (u : User) (store : PostStore)
    (q1 : UsersQuery) (q2 : AttachmentsQuery) (q3 : PostsQuery)
    (hU : key ∉ usersOrderKeys) (hA : key ∉ attachmentsOrderKeys)
    (hP : key ∉ postsOrderKeys)
    (hq1 : q1.order_by = some key) (hq2 : q2.order_by = some key)
    (hq3 : q3.order_by = key) :
    list_users users q1 =
      (Except.error (FieldError.InvalidParams key), [Stmt.countStmt])
    ∧ list_attachments contents u q2 =
      (Except.error (FieldError.InvalidParams key), [Stmt.countStmt])
    ∧ (list_posts store q3).2 = [Stmt.countStmt, Stmt.selectStmt "cid"] := by
  simp only [usersOrderKeys, attachmentsOrderKeys, postsOrderKeys,
    List.mem_cons, List.not_mem_nil, or_false, not_or] at hU hA hP
  obtain ⟨u1, u2, u3, u4, u5, u6⟩ := hU
  obtain ⟨a1, a2, a3, a4⟩ := hA
  obtain ⟨p1, p2, p3⟩ := hP
  refine ⟨?_, ?_, ?_⟩
  · simp [list_users, users_order_frag, hq1, u1, u2, u3, u4, u5, u6]
  · simp [list_attachments, attachments_order_frag, hq2, a1, a2, a3, a4]
  · have hfrag : posts_order_frag q3.order_by = "cid" := by
      simp [posts_order_frag, hq3, p1, p2, p3]
    by_cases hm : q3.with_meta.getD false = true <;>
      simp [list_posts, hfrag, hm]

theorem C1_order_key_validation_witness :
    "bogus" ∉ usersOrderKeys ∧ "bogus" ∉ attachmentsOrderKeys ∧
    "bogus" ∉ postsOrderKeys ∧
    (list_users [mkUser 1 "administrator"]
        { page := some 1, page_size := some 10, order_by := some "bogus" } =
      (Except.error (FieldError.InvalidParams "bogus"), [Stmt.countStmt])
    ∧ list_attachments [mkContent 1 "attachment" 5 none] (mkUser 5 "contributor")
        { page := some 1, page_size := some 10, order_by := some "bogus",
          private_flag := none } =
      (Except.error (FieldError.InvalidParams "bogus"), [Stmt.countStmt])
    ∧ (list_posts demoPostStore
        { page := 1, page_size := 10, order_by := "bogus",
          with_meta := none }).2 = [Stmt.countStmt, Stmt.selectStmt "cid"]) :=
  ⟨by decide, by decide, by decide,
   C1_order_key_validation "bogus" [mkUser 1 "administrator"]
     [mkContent 1 "attachment" 5 none] (mkUser 5 "contributor") demoPostStore
     { page := some 1, page_size := some 10, order_by := some "bogus" }
     { page := some 1, page_size := some 10, order_by := some "bogus",
       private_flag := none }
     { page := 1, page_size := 10, order_by := "bogus", with_meta := none }
     (by decide) (by decide) (by decide) rfl rfl rfl⟩

/-- C2: the with-meta posts listing drops a parent post that has zero
matching tags (or zero matching categories): on a store whose single post
has one category and no tags, exactly one content row satisfies the type
predicate and it carries a category group, yet the tags CTE is empty and
the with-meta results are empty — the parent is silently dropped by the
inner joins instead of appearing once with an empty tag sequence. (The
handler's reported all_count is 0 here as on every input, its COUNT
statement being broken independently of the join bug.) -/
theorem C2_childless_parent_dropped :
    (list_posts bugPostStore
        { page := 1, page_size := 10, order_by := "-cid",
          with_meta := some true }).1.results = PostsResults.withMeta []
    ∧ (bugPostStore.contents.filter (fun c => c.type == "post")).length = 1
    ∧ (list_posts bugPostStore
        { page := 1, page_size := 10, order_by := "-cid",
          with_meta := some true }).1.all_count = 0
    ∧ group_json bugPostStore "category" = [(1, [mkMeta 10 "category"])]
    ∧ group_json bugPostStore "tag" = [] := by
  refine ⟨by decide, by decide, by decide, by decide, by decide⟩

end Ters
